import Mathlib

/-!
# Verification of the mbgl-renderer request-orchestration pipeline

Shallow embedding of the core of `mbgl-renderer` (src/src/server.js and
src/src/render.ts): parameter validation, bounds-to-viewport resolution,
style-import merging, the resource-fetch status policy, icon loading and
the post-render pixel conversion.

Modelling conventions:
* JavaScript numbers are modelled by `JSNum`: a rational for every finite
  double plus `nan`, `posInf`, `negInf`.  All comparisons and arithmetic
  follow the IEEE/JS rules on these representatives; IEEE rounding of
  intermediate results is not modelled (the code under study only
  compares, subtracts, halves and rounds values).
* JS strings are Lean `String`s; character-level operations (`split`,
  the mbtiles regular expression) work on `List Char` via `String.data`.
* External collaborators (the maplibre renderer, `sharp`, the network,
  `geo-viewport`, the WHATWG `URL` parser, base64 decoding) are passed in
  as function parameters: the theorems hold for every instantiation.
* Each `new Error(...)` site is mapped to one constructor of an error
  inductive; a thrown exception is an `Except.error`.
-/

/-- A JavaScript number: a finite value (as an exact rational) or one of
the special values `NaN`, `Infinity`, `-Infinity`. -/
inductive JSNum where
  | fin (q : ℚ)
  | nan
  | posInf
  | negInf
  deriving DecidableEq

namespace JSNum

/-- `Number.isFinite`. -/
def isFinite : JSNum → Bool
  | fin _ => true
  | _ => false

/-- JS `ToBoolean` on a number: `0`, `-0` and `NaN` are falsy. -/
def truthy : JSNum → Bool
  | fin q => q ≠ 0
  | nan => false
  | _ => true

/-- `Math.abs`. -/
def jabs : JSNum → JSNum
  | fin q => fin |q|
  | nan => nan
  | _ => posInf

/-- The JS `<` comparison (false whenever an operand is `NaN`). -/
def jlt : JSNum → JSNum → Bool
  | fin a, fin b => decide (a < b)
  | fin _, posInf => true
  | negInf, fin _ => true
  | negInf, posInf => true
  | _, _ => false

/-- The JS `>` comparison. -/
def jgt (a b : JSNum) : Bool := jlt b a

/-- The JS `===` comparison on numbers (`NaN === NaN` is false). -/
def jeqStrict : JSNum → JSNum → Bool
  | fin a, fin b => decide (a = b)
  | posInf, posInf => true
  | negInf, negInf => true
  | _, _ => false

/-- The JS `>=` comparison (false whenever an operand is `NaN`). -/
def jge (a b : JSNum) : Bool := jgt a b || jeqStrict a b

/-- JS subtraction. -/
def jsub : JSNum → JSNum → JSNum
  | fin a, fin b => fin (a - b)
  | fin _, posInf => negInf
  | fin _, negInf => posInf
  | posInf, fin _ => posInf
  | posInf, negInf => posInf
  | negInf, fin _ => negInf
  | negInf, posInf => negInf
  | _, _ => nan

/-- JS multiplication. -/
def jmul : JSNum → JSNum → JSNum
  | fin a, fin b => fin (a * b)
  | fin a, posInf => if a = 0 then nan else if 0 < a then posInf else negInf
  | fin a, negInf => if a = 0 then nan else if 0 < a then negInf else posInf
  | posInf, fin b => if b = 0 then nan else if 0 < b then posInf else negInf
  | negInf, fin b => if b = 0 then nan else if 0 < b then negInf else posInf
  | posInf, posInf => posInf
  | posInf, negInf => negInf
  | negInf, posInf => negInf
  | negInf, negInf => posInf
  | _, _ => nan

/-- JS division (only used with nonzero literal divisors in the code). -/
def jdiv : JSNum → JSNum → JSNum
  | fin a, fin b =>
      if b = 0 then (if a = 0 then nan else if 0 < a then posInf else negInf)
      else fin (a / b)
  | fin _, posInf => fin 0
  | fin _, negInf => fin 0
  | posInf, fin b => if 0 ≤ b then posInf else negInf
  | negInf, fin b => if 0 ≤ b then negInf else posInf
  | _, _ => nan

/-- `Math.max` on two arguments (`NaN` if either argument is `NaN`). -/
def jmax : JSNum → JSNum → JSNum
  | nan, _ => nan
  | _, nan => nan
  | a, b => if jlt a b then b else a

/-- `Math.round`: round half toward positive infinity. -/
def jround : JSNum → JSNum
  | fin q => fin ((⌊q + 1/2⌋ : ℤ) : ℚ)
  | x => x

end JSNum

/-- A JSON value (JS object graph); objects are association lists in
insertion order. -/
inductive Json where
  | null
  | bool (b : Bool)
  | num (q : ℚ)
  | str (s : String)
  | arr (elems : List Json)
  | obj (fields : List (String × Json))

/-- JS `ToBoolean` of a JSON value (objects and arrays are always truthy). -/
def jsonFalsy : Json → Bool
  | .null => true
  | .bool b => !b
  | .num q => decide (q = 0)
  | .str s => decide (s = "")
  | .arr _ => false
  | .obj _ => false

/-- `typeof v === 'object'` (true for objects, arrays and `null`). -/
def jsonIsObjectTy : Option Json → Bool
  | some .null => true
  | some (.arr _) => true
  | some (.obj _) => true
  | _ => false

/-- `typeof v === 'string'`. -/
def jsonIsStringTy : Option Json → Bool
  | some (.str _) => true
  | _ => false

/-- An absent (`undefined`) or falsy value; `!style.fog`-style tests. -/
def jsonFalsyOpt : Option Json → Bool
  | none => true
  | some j => jsonFalsy j

/-- Lowercase hex digit, for JSON string escapes. -/
def hexDigitChar (n : Nat) : Char :=
  if n < 10 then Char.ofNat (48 + n) else Char.ofNat (87 + n)

/-- `JSON.stringify` escaping of a single character inside a string. -/
def escChar (c : Char) : List Char :=
  if c = '"' then ['\\', '"']
  else if c = '\\' then ['\\', '\\']
  else if c = '\x08' then ['\\', 'b']
  else if c = '\x0c' then ['\\', 'f']
  else if c = '\n' then ['\\', 'n']
  else if c = '\r' then ['\\', 'r']
  else if c = '\t' then ['\\', 't']
  else if c.toNat < 32 then
    ['\\', 'u', '0', '0', hexDigitChar (c.toNat / 16), hexDigitChar (c.toNat % 16)]
  else [c]

/-- Serialization of a JSON number.  JS formats doubles with the ECMAScript
`Number::toString` algorithm; the claims under study never depend on the
rendering of non-integral numbers, so integral values are rendered exactly
and non-integral values in a `num/den` placeholder form (which cannot
introduce the letters of an `mbtiles://` reference). -/
def numStr (q : ℚ) : String :=
  if q.den = 1 then toString q.num else toString q.num ++ "/" ++ toString q.den

mutual

/-- `JSON.stringify`, producing the character sequence of the result. -/
def stringifyJson : Json → List Char
  | .null => "null".data
  | .bool b => if b then "true".data else "false".data
  | .num q => (numStr q).data
  | .str s => '"' :: (s.data.flatMap escChar ++ ['"'])
  | .arr xs => '[' :: (stringifyArr xs ++ [']'])
  | .obj fs => Char.ofNat 123 :: (stringifyFields fs ++ [Char.ofNat 125])

/-- Elements of a JSON array, comma separated. -/
def stringifyArr : List Json → List Char
  | [] => []
  | [x] => stringifyJson x
  | x :: y :: rest => stringifyJson x ++ ',' :: stringifyArr (y :: rest)

/-- Fields of a JSON object, comma separated. -/
def stringifyFields : List (String × Json) → List Char
  | [] => []
  | [kv] => '"' :: (kv.1.data.flatMap escChar ++ '"' :: ':' :: stringifyJson kv.2)
  | kv :: kv2 :: rest =>
      '"' :: (kv.1.data.flatMap escChar ++ '"' :: ':' :: stringifyJson kv.2)
        ++ ',' :: stringifyFields (kv2 :: rest)

end

/-! ## Character-level string operations (JS `split`, the mbtiles regex) -/

/-- Boolean prefix test on character lists (`String.prototype.startsWith`). -/
def isPrefixL : List Char → List Char → Bool
  | [], _ => true
  | _ :: _, [] => false
  | a :: as, b :: bs => a == b && isPrefixL as bs

/-- `String.prototype.startsWith`. -/
def jsStartsWith (pre s : String) : Bool := isPrefixL pre.data s.data

/-- Whether the pattern occurs as a contiguous substring. -/
def containsSubL (pat : List Char) : List Char → Bool
  | [] => isPrefixL pat []
  | c :: rest => isPrefixL pat (c :: rest) || containsSubL pat rest

/-- JS `String.prototype.split` with a nonempty plain-string separator
`c0 :: sepRest`: the list of the parts between consecutive occurrences. -/
def jsSplit (c0 : Char) (sepRest : List Char) : List Char → List (List Char)
  | [] => [[]]
  | c :: rest =>
      if isPrefixL (c0 :: sepRest) (c :: rest) then
        [] :: jsSplit c0 sepRest (List.drop sepRest.length rest)
      else
        match jsSplit c0 sepRest rest with
        | [] => [[c]]
        | h :: t => (c :: h) :: t
  termination_by s => s.length
  decreasing_by
    · simp only [List.length_cons, List.length_drop]; omega
    · simp only [List.length_cons]; omega

/-- The JS `\s` character class (the whitespace characters a `\S` must not
be); the common ASCII and Unicode members. -/
def jsWhitespace (c : Char) : Bool :=
  c = ' ' || c = '\t' || c = '\n' || c = '\r' || c = '\x0b' || c = '\x0c' ||
    c.toNat = 160 || c.toNat = 0x2028 || c.toNat = 0x2029 || c.toNat = 0xfeff

/-- After the literal `mbtiles://`, the regex `(\S+?)(?=[/"]+)` matches iff
some nonempty run of non-whitespace characters is followed by `/` or `"`. -/
def mbtilesPayload : List Char → Bool
  | c :: d :: rest =>
      !jsWhitespace c && ((d = '/' || d = '"') || mbtilesPayload (d :: rest))
  | _ => false

/-- Case-insensitive prefix test (the regex carries the `i` flag). -/
def isPrefixCI : List Char → List Char → Bool
  | [], _ => true
  | _ :: _, [] => false
  | a :: as, b :: bs => a.toLower == b.toLower && isPrefixCI as bs

/-- `MBTILES_REGEXP = /mbtiles:\/\/(\S+?)(?=[/"]+)/gi` applied with
`String.prototype.match`: true iff the pattern matches somewhere. -/
def mbtilesMatch : List Char → Bool
  | [] => false
  | c :: rest =>
      (isPrefixCI "mbtiles://".data (c :: rest) &&
        mbtilesPayload (List.drop 9 rest)) ||
      mbtilesMatch rest

/-! ## Style documents and the import merge (render.ts lines 627-682) -/

/-- A style layer: the `source` field (rewritten by the merge) plus the
rest of the layer object, which the object spread copies unchanged. -/
structure Layer where
  source : Option String
  rest : List (String × Json)

/-- A style document of the shape the merge code accesses: `sources` is a
JS object in insertion order, `layers` an array; `fog`, `glyphs`, `sprite`
optional; `extra` carries all remaining fields (serialized, untouched). -/
structure Style where
  sources : List (String × Json)
  layers : List Layer
  fog : Option Json := none
  glyphs : Option Json := none
  sprite : Option Json := none
  extra : List (String × Json) := []

/-- One import request: `{id, url}`. -/
structure ImportRef where
  id : String
  url : String

/-- The rewritten name of an imported source:
`key === 'composite' ? importId : importId + '-' + key`. -/
def importKey (importId key : String) : String :=
  if key = "composite" then importId else importId ++ "-" ++ key

/-- JS object assignment `m[k] = v`: replaces the value in place when the
key exists, else appends the key. -/
def objSet (m : List (String × Json)) (k : String) (v : Json) :
    List (String × Json) :=
  if m.any (fun p => p.1 = k) then
    m.map (fun p => if p.1 = k then (k, v) else p)
  else m ++ [(k, v)]

/-- JS object lookup on an association list. -/
def lookupSrc : List (String × Json) → String → Option Json
  | [], _ => none
  | (k', v) :: rest, k => if k' = k then some v else lookupSrc rest k

/-- Rewrite of one imported layer:
`{...layer, source: !layer.source ? undefined : layer.source === 'composite' ? importId : importId + '-' + layer.source}`
(a falsy source — absent or the empty string — becomes `undefined`). -/
def rewriteLayer (importId : String) (l : Layer) : Layer :=
  { l with
    source :=
      match l.source with
      | none => none
      | some s =>
          if s = "" then none
          else if s = "composite" then some importId
          else some (importId ++ "-" ++ s) }

/-- The effective id of an import at index `idx`: `id || idx.toString()`. -/
def effectiveImportId (idx : Nat) (id : String) : String :=
  if id = "" then toString idx else id

/-- The body of the per-import `forEach`: add the (renamed) sources, prepend
the rewritten layers, and copy `fog`/`glyphs`/`sprite` only if unset. -/
def mergeOne (base : Style) (importId : String) (imp : Style) : Style :=
  { base with
    sources :=
      imp.sources.foldl
        (fun acc kv => objSet acc (importKey importId kv.1) kv.2) base.sources
    layers := imp.layers.map (rewriteLayer importId) ++ base.layers
    fog :=
      if jsonIsObjectTy imp.fog && jsonFalsyOpt base.fog then imp.fog
      else base.fog
    glyphs :=
      if jsonIsStringTy imp.glyphs && jsonFalsyOpt base.glyphs then imp.glyphs
      else base.glyphs
    sprite :=
      if jsonIsStringTy imp.sprite && jsonFalsyOpt base.sprite then imp.sprite
      else base.sprite }

/-- The `importedStyles.forEach` loop, carrying the running array index. -/
def mergeAux (base : Style) (idx : Nat) : List (String × Style) → Style
  | [] => base
  | (id, imp) :: rest =>
      mergeAux (mergeOne base (effectiveImportId idx id) imp) (idx + 1) rest

/-- Merge the resolved imports (id plus fetched style, in request order)
into the base style. -/
def mergeImportedStyles (base : Style) (imports : List (String × Style)) :
    Style :=
  mergeAux base 0 imports

/-- Every source name an import list writes into the base style. -/
def rewrittenKeysAux (idx : Nat) : List (String × Style) → List String
  | [] => []
  | (id, imp) :: rest =>
      imp.sources.map (fun kv => importKey (effectiveImportId idx id) kv.1) ++
        rewrittenKeysAux (idx + 1) rest

/-- The rewritten layer blocks of the imports, in request order. -/
def rewriteBlocksAux (idx : Nat) : List (String × Style) → List (List Layer)
  | [] => []
  | (id, imp) :: rest =>
      imp.layers.map (rewriteLayer (effectiveImportId idx id)) ::
        rewriteBlocksAux (idx + 1) rest

/-- A layer back as the JS object the spread produced (an absent or
falsified `source` is `undefined`, which `JSON.stringify` skips). -/
def layerToJson (l : Layer) : Json :=
  Json.obj (l.rest ++ (match l.source with
    | none => []
    | some s => [("source", Json.str s)]))

/-- The merged style as the JS object handed to `JSON.stringify` (field
order differs from the original object only in the placement of the
optional fields, which no claim depends on). -/
def styleToJson (s : Style) : Json :=
  Json.obj
    ([("sources", Json.obj s.sources),
      ("layers", Json.arr (s.layers.map layerToJson))] ++
     (match s.fog with | none => [] | some f => [("fog", f)]) ++
     (match s.glyphs with | none => [] | some g => [("glyphs", g)]) ++
     (match s.sprite with | none => [] | some sp => [("sprite", sp)]) ++
     s.extra)

/-! ## The resource fetcher (render.ts lines 131-380) -/

/-- A received HTTP response: status code, body bytes and the three
conditional headers the code reads (a `none` header is a `null` from
`headers.get`). -/
structure HttpResponse where
  status : Nat
  body : List Nat := []
  etag : Option String := none
  lastModified : Option String := none
  expires : Option String := none

/-- The `RequestResponse` handed to the renderer callback. -/
structure RequestResponse where
  data : List Nat
  etag : Option String := none
  modified : Option String := none
  expires : Option String := none
  deriving DecidableEq

/-- Errors of the resource fetcher / request handler. -/
inductive FetchErr where
  | tileFailed
  | assetFailed
  | mapboxUnsupported
  | kindNotHandled
  deriving DecidableEq

/-- `res.ok`: status in the inclusive range 200-299. -/
def resOk (r : HttpResponse) : Bool := 200 ≤ r.status && r.status ≤ 299

/-- `getRemoteTile` (the status policy applied to a received response):
204 and 404 resolve with `null` data, any other non-2xx status throws. -/
def getRemoteTile (r : HttpResponse) : Except FetchErr (Option RequestResponse) :=
  if r.status = 204 then .ok none
  else if r.status = 404 then .ok none
  else if !resOk r then .error .tileFailed
  else .ok (some
    { data := r.body
      etag := match r.etag with | some e => if e = "" then none else some e | none => none
      modified := match r.lastModified with
        | some m => if m = "" then none else some m
        | none => none
      expires := match r.expires with
        | some e => if e = "" then none else some e
        | none => none })

/-- `getRemoteAsset`: any non-2xx status throws; no null-data tolerance. -/
def getRemoteAsset (r : HttpResponse) : Except FetchErr RequestResponse :=
  if !resOk r then .error .assetFailed
  else .ok
    { data := r.body
      etag := match r.etag with | some e => if e = "" then none else some e | none => none
      modified := match r.lastModified with
        | some m => if m = "" then none else some m
        | none => none
      expires := match r.expires with
        | some e => if e = "" then none else some e
        | none => none }

/-- `requestHandler`: reject Mapbox-scheme URLs, then dispatch by resource
kind — 2 source, 3 tile, 4 glyph, 5 sprite image, 6 sprite JSON, 7 image
source (given the response the transport produced for the URL). -/
def requestHandler (r : HttpResponse) (url : String) (kind : Nat) :
    Except FetchErr (Option RequestResponse) :=
  if jsStartsWith "mapbox://" url then .error .mapboxUnsupported
  else if kind = 2 ∨ kind = 4 ∨ kind = 5 ∨ kind = 6 ∨ kind = 7 then
    (getRemoteAsset r).map some
  else if kind = 3 then getRemoteTile r
  else .error .kindNotHandled

/-! ## Pixel conversion (render.ts `toPNG`, lines 476-506) -/

/-- Binary length of a natural number (fuel-bounded structural recursion,
so the kernel can evaluate it; `n` itself is enough fuel). -/
def bitLenAux : Nat → Nat → Nat
  | 0, _ => 0
  | fuel + 1, n => if n = 0 then 0 else bitLenAux fuel (n / 2) + 1

/-- Number of binary digits of `n` (0 for 0). -/
def bitLen (n : Nat) : Nat := bitLenAux n n

/-- Round the positive rational `n/d` (`n, d ≥ 1`) to the nearest IEEE
binary64 value, ties to even, returned as a dyadic pair
`(mantissa, exponent)` denoting `mantissa * 2^exponent`.  The quotient is
scaled so its integer part `Q` has 53 or 54 significant bits, then rounded
on the remainder (the pixel loop keeps every intermediate value well
inside the normal binary64 range, so neither subnormals nor overflow can
arise). -/
def roundFloat64Pos (n d : Nat) : Nat × Int :=
  let k : Int := (bitLen n : Int) - (bitLen d : Int)
  let s : Int := 53 - k
  let N := n * 2 ^ s.toNat
  let D := d * 2 ^ (-s).toNat
  let Q := N / D
  let R := N % D
  if Q < 2 ^ 53 then
    (if 2 * R > D then Q + 1
     else if 2 * R < D then Q
     else if Q % 2 = 0 then Q else Q + 1, k - 53)
  else
    (if Q % 2 * D + R > D then Q / 2 + 1
     else if Q % 2 * D + R < D then Q / 2
     else if Q / 2 % 2 = 0 then Q / 2 else Q / 2 + 1, k - 52)

/-- The byte stored by `buffer[i] /= norm` with `norm = alpha / 255`: the
two IEEE binary64 divisions carried out exactly — `norm` is the correctly
rounded quotient `alpha/255`, and the value is divided by that rounded
`norm` and correctly rounded again — followed by `Uint8Array`'s `ToUint8`
(truncate toward zero, reduce mod 256).  A zero value or zero alpha
stores 0 (`0/norm` is `0`, `v/0` is `Infinity`, and `ToUint8` sends both
to 0). -/
def jsDivByte (v a : Nat) : Nat :=
  if v = 0 ∨ a = 0 then 0
  else
    let norm := roundFloat64Pos a 255
    let q := roundFloat64Pos (v * 2 ^ (-norm.2).toNat) (norm.1 * 2 ^ norm.2.toNat)
    (if q.2 < 0 then q.1 / 2 ^ (-q.2).toNat else q.1 * 2 ^ q.2.toNat) % 256

/-- The in-place un-premultiplication loop over the RGBA byte buffer.
A trailing partial pixel (impossible for a real renderer buffer) reads an
undefined alpha, divides by `NaN` and stores 0. -/
def unpremultiply : List Nat → List Nat
  | r :: g :: b :: a :: rest =>
      (if a = 0 then [0, 0, 0, a]
       else [jsDivByte r a, jsDivByte g a, jsDivByte b a, a]) ++
        unpremultiply rest
  | other => other.map (fun _ => 0)

/-- The result of `toPNG` before the external PNG container encoding: the
corrected raw buffer and the dimensions given to the encoder. -/
structure PNGOut where
  data : List Nat
  width : JSNum
  height : JSNum
  deriving DecidableEq

/-- `toPNG`: un-premultiply, then encode at
`(Math.round(width*ratio), Math.round(height*ratio))`. -/
def toPNG (buffer : List Nat) (width height ratio : JSNum) : PNGOut :=
  { data := unpremultiply buffer
    width := JSNum.jround (JSNum.jmul width ratio)
    height := JSNum.jround (JSNum.jmul height ratio) }

/-- The `i`-th 4-byte pixel of a buffer, when fully present. -/
def pixelAt (l : List Nat) (i : Nat) : Option (Nat × Nat × Nat × Nat) :=
  match l.drop (4 * i) with
  | r :: g :: b :: a :: _ => some (r, g, b, a)
  | _ => none

/-- What the loop body does to one pixel. -/
def pixelFix : Nat × Nat × Nat × Nat → Nat × Nat × Nat × Nat
  | (r, g, b, a) =>
      if a = 0 then (0, 0, 0, a)
      else (jsDivByte r a, jsDivByte g a, jsDivByte b a, a)

/-! ## Viewport resolution (render.ts lines 604-619) -/

/-- What `geoViewport.viewport(bounds, dims, ..., true)` returns. -/
structure FitResult where
  center : List JSNum
  zoom : JSNum

/-- The bounds branch: when bounds are present and zoom or center is
missing, fit the bounds into `(width - 2*padding, height - 2*padding)`,
take the center verbatim and pull the zoom back one level, floored at 0. -/
def resolveViewport (fit : List JSNum → JSNum × JSNum → FitResult)
    (bounds : Option (List JSNum)) (zoom : Option JSNum)
    (center : Option (List JSNum)) (width height padding : JSNum) :
    Option (List JSNum) × Option JSNum :=
  match bounds with
  | some bs =>
      if zoom.isNone || center.isNone then
        let vp := fit bs
          (JSNum.jsub width (JSNum.jmul (JSNum.fin 2) padding),
           JSNum.jsub height (JSNum.jmul (JSNum.fin 2) padding))
        (some vp.center, some (JSNum.jmax (JSNum.jsub vp.zoom (JSNum.fin 1)) (JSNum.fin 0)))
      else (center, zoom)
  | none => (center, zoom)

/-! ## The render pipeline (render.ts `render`, lines 523-713) -/

/-- One constructor per `new Error(...)` site reachable from `render`. -/
inductive RErr where
  | styleRequired
  | widthHeightRequired
  | centerLength
  | centerLon
  | centerLat
  | zoomRange
  | bearingRange
  | pitchRange
  | boundsLength
  | paddingWidth
  | paddingHeight
  | importError (msg : String)
  | shapeError
  | mbtilesUnsupported
  | invalidImageUrl (id : String)
  | iconError (id : String)
  | renderFailed (msg : String)
  deriving DecidableEq

/-- Sequencing of two statements in a function that throws: the second
runs only when the first did not throw. -/
def exSeq {E A : Type} (a : Except E Unit) (b : Except E A) : Except E A :=
  match a with
  | .error e => .error e
  | .ok _ => b

/-- render.ts lines 551-568: the center checks (no finiteness test here,
unlike the server layer). -/
def checkCenterTs : Option (List JSNum) → Except RErr Unit
  | none => .ok ()
  | some [lon, lat] =>
      if JSNum.jgt (JSNum.jabs lon) (.fin 180) then .error .centerLon
      else if JSNum.jgt (JSNum.jabs lat) (.fin 90) then .error .centerLat
      else .ok ()
  | some _ => .error .centerLength

/-- render.ts line 570: `zoom !== null && (zoom < 0 || zoom > 22)`. -/
def checkZoomTs : Option JSNum → Except RErr Unit
  | none => .ok ()
  | some z =>
      if JSNum.jlt z (.fin 0) || JSNum.jgt z (.fin 22) then .error .zoomRange
      else .ok ()

/-- render.ts line 575: bearing in [0, 360]. -/
def checkBearingTs : Option JSNum → Except RErr Unit
  | none => .ok ()
  | some b =>
      if JSNum.jlt b (.fin 0) || JSNum.jgt b (.fin 360) then .error .bearingRange
      else .ok ()

/-- render.ts line 580: pitch in [0, 60]. -/
def checkPitchTs : Option JSNum → Except RErr Unit
  | none => .ok ()
  | some pt =>
      if JSNum.jlt pt (.fin 0) || JSNum.jgt pt (.fin 60) then .error .pitchRange
      else .ok ()

/-- render.ts lines 585-602: bounds length, then the two padding checks
(only when padding is truthy). -/
def checkBoundsTs (bounds : Option (List JSNum)) (padding width height : JSNum) :
    Except RErr Unit :=
  match bounds with
  | none => .ok ()
  | some bs =>
      if bs.length ≠ 4 then .error .boundsLength
      else if padding.truthy then
        if JSNum.jge (JSNum.jabs padding) (JSNum.jdiv width (.fin 2)) then
          .error .paddingWidth
        else if JSNum.jge (JSNum.jabs padding) (JSNum.jdiv height (.fin 2)) then
          .error .paddingHeight
        else .ok ()
      else .ok ()

/-- An entry of the request's `images` map. -/
structure ImageDef where
  url : String
  pixelRatio : ℚ := 1
  sdf : Bool := false

/-- The options object destructured at the top of `render` (field defaults
are the destructuring defaults; a field holding `none` was passed `null`). -/
structure ROptions where
  bounds : Option (List JSNum) := none
  bearing : Option JSNum := some (.fin 0)
  pitch : Option JSNum := some (.fin 0)
  token : Option String := none
  ratio : JSNum := .fin 1
  padding : JSNum := .fin 0
  images : Option (List (String × ImageDef)) := none
  imports : Option (List ImportRef) := none
  center : Option (List JSNum) := none
  zoom : Option JSNum := none
  tilePath : Option String := none

/-- render.ts lines 551-602 in source order: center, zoom, bearing, pitch,
bounds/padding. -/
def validateRenderCore (width height : JSNum) (o : ROptions) : Except RErr Unit :=
  exSeq (checkCenterTs o.center) <|
  exSeq (checkZoomTs o.zoom) <|
  exSeq (checkBearingTs o.bearing) <|
  exSeq (checkPitchTs o.pitch) <|
  checkBoundsTs o.bounds o.padding width height

/-- The imported style passes `getRemoteStyleImport`'s shape test:
an object whose `version` field is exactly 8. -/
def isStyleVersion8 : Json → Bool
  | .obj fs =>
      match lookupSrc fs "version" with
      | some (.num q) => decide (q = 8)
      | _ => false
  | _ => false

/-- `getRemoteStyleImport` (render.ts lines 288-315): normalize a
Mapbox-hosted style URL (via the external URL rewriter), fetch JSON, and
require an object with `version === 8`; every failure is caught and
rewrapped. -/
def getRemoteStyleImport (normalize : String → String)
    (importFetch : String → Except String Json) (url : String) :
    Except String Json :=
  let importStyleUrl :=
    if jsStartsWith "mapbox://styles/" url then normalize url else url
  if importStyleUrl = "" then .error "Invalid import style URL"
  else
    match importFetch importStyleUrl with
    | .error _ => .error ("Could not fetch import style from " ++ importStyleUrl)
    | .ok j =>
        if jsonFalsy j then
          .error ("Could not fetch import style: " ++ importStyleUrl)
        else if isStyleVersion8 j then .ok j
        else .error "Invalid import style (Version Required: 8)"

/-- A fetched import read back as a `Style`; `none` models the `TypeError`
the merge loop throws when `sources`/`layers` do not have the expected
shape (layer `source` fields must be strings or absent). -/
def jsonToLayer : Json → Option Layer
  | .obj fs =>
      match lookupSrc fs "source" with
      | none =>
          some { source := none, rest := fs.filter (fun kv => kv.1 ≠ "source") }
      | some (.str s) =>
          some { source := some s, rest := fs.filter (fun kv => kv.1 ≠ "source") }
      | some _ => none
  | _ => none

/-- A fetched import as a `Style` document (see `jsonToLayer`). -/
def jsonToStyle (j : Json) : Option Style :=
  match j with
  | .obj fs =>
      match lookupSrc fs "sources", lookupSrc fs "layers" with
      | some (.obj srcs), some (.arr ls) =>
          match ls.mapM jsonToLayer with
          | some layers =>
              some { sources := srcs
                     layers := layers
                     fog := lookupSrc fs "fog"
                     glyphs := lookupSrc fs "glyphs"
                     sprite := lookupSrc fs "sprite"
                     extra := fs.filter (fun kv =>
                       kv.1 ≠ "sources" ∧ kv.1 ≠ "layers" ∧ kv.1 ≠ "fog" ∧
                         kv.1 ≠ "glyphs" ∧ kv.1 ≠ "sprite") }
          | none => none
      | _, _ => none
  | _ => none

/-- Resolve every import of the request (render.ts lines 629-635). -/
def resolveImports (normalize : String → String)
    (importFetch : String → Except String Json) (imports : List ImportRef) :
    Except RErr (List (String × Style)) :=
  imports.mapM (fun e =>
    match getRemoteStyleImport normalize importFetch e.url with
    | .error m => .error (.importError m)
    | .ok j =>
        match jsonToStyle j with
        | none => .error .shapeError
        | some s => .ok (e.id, s))

/-- render.ts line 628: the import stage runs only for a non-null,
nonempty import list. -/
def importsStep (normalize : String → String)
    (importFetch : String → Except String Json) :
    Option (List ImportRef) → Except RErr (List (String × Style))
  | none => .ok []
  | some l =>
      if 0 < l.length then resolveImports normalize importFetch l else .ok []

/-- What `sharp(...).metadata()` / `.raw().toBuffer()` produce. -/
structure DecodedImage where
  data : List Nat
  width : Option ℚ
  height : Option ℚ

/-- The `map.addImage` call an icon load performs. -/
structure AddImageCall where
  id : String
  data : List Nat
  width : Option ℚ
  height : Option ℚ
  pixelRatio : ℚ
  sdf : Bool

/-- `loadImage` (render.ts lines 389-431): a falsy url is rejected; a
`data:` url is split on `'base64,'` and part 1 is base64 decoded
(`Buffer.from(undefined, 'base64')` throws when the separator is absent);
otherwise the url is fetched as an asset; the bytes are decoded with
`sharp` and registered; every failure inside the `try` becomes the
`Error loading icon image: <id>` rethrow. -/
def loadImage (b64decode : String → List Nat)
    (imageFetch : String → Except String (List Nat))
    (decodeImage : List Nat → Option DecodedImage)
    (id : String) (img : ImageDef) : Except RErr AddImageCall :=
  if img.url = "" then .error (.invalidImageUrl id)
  else
    let payload : Option (List Nat) :=
      if jsStartsWith "data:" img.url then
        match (jsSplit 'b' "ase64,".data img.url.data)[1]? with
        | none => none
        | some part => some (b64decode (String.mk part))
      else
        match imageFetch img.url with
        | .error _ => none
        | .ok d => some d
    match payload with
    | none => .error (.iconError id)
    | some buf =>
        match decodeImage buf with
        | none => .error (.iconError id)
        | some dec =>
            .ok { id := id
                  data := dec.data
                  width := dec.width
                  height := dec.height
                  pixelRatio := img.pixelRatio
                  sdf := img.sdf }

/-- The per-entry loop of `loadImages`: all icon loads must succeed. -/
def loadImagesList (b64decode : String → List Nat)
    (imageFetch : String → Except String (List Nat))
    (decodeImage : List Nat → Option DecodedImage) :
    List (String × ImageDef) → Except RErr (List AddImageCall)
  | [] => .ok []
  | kv :: rest =>
      match loadImage b64decode imageFetch decodeImage kv.1 kv.2 with
      | .error e => .error e
      | .ok a =>
          match loadImagesList b64decode imageFetch decodeImage rest with
          | .error e => .error e
          | .ok as => .ok (a :: as)

/-- `loadImages` (render.ts lines 438-449): all icon loads must succeed
(`Promise.all` — no partial success). -/
def loadImages (b64decode : String → List Nat)
    (imageFetch : String → Except String (List Nat))
    (decodeImage : List Nat → Option DecodedImage) :
    Option (List (String × ImageDef)) → Except RErr (List AddImageCall)
  | none => .ok []
  | some imgs => loadImagesList b64decode imageFetch decodeImage imgs

/-- The options `render` hands to `map.render` (and thus the external
renderer). -/
structure RenderArgs where
  zoom : Option JSNum
  center : Option (List JSNum)
  height : JSNum
  width : JSNum
  bearing : Option JSNum
  pitch : Option JSNum

/-- `render` (render.ts lines 523-713): validate, resolve the viewport,
resolve and merge the imports, reject local mbtiles references, load the
icons, invoke the external renderer, convert the pixels. -/
def render (fit : List JSNum → JSNum × JSNum → FitResult)
    (normalize : String → Option String → String)
    (importFetch : String → Except String Json)
    (b64decode : String → List Nat)
    (imageFetch : String → Except String (List Nat))
    (decodeImage : List Nat → Option DecodedImage)
    (renderer : RenderArgs → Except String (List Nat))
    (style : Option Style) (width height : JSNum) (o : ROptions) :
    Except RErr PNGOut :=
  match style with
  | none => .error .styleRequired
  | some st =>
      if !(width.truthy && height.truthy) then .error .widthHeightRequired
      else
        match validateRenderCore width height o with
        | .error e => .error e
        | .ok _ =>
            let cz := resolveViewport fit o.bounds o.zoom o.center width height o.padding
            match importsStep (fun u => normalize u o.token) importFetch o.imports with
            | .error e => .error e
            | .ok resolved =>
                let merged := mergeImportedStyles st resolved
                if mbtilesMatch (stringifyJson (styleToJson merged)) then
                  .error .mbtilesUnsupported
                else
                  match loadImages b64decode imageFetch decodeImage o.images with
                  | .error e => .error e
                  | .ok _adds =>
                      match renderer
                        { zoom := cz.2, center := cz.1, height := height,
                          width := width, bearing := o.bearing, pitch := o.pitch } with
                      | .error m => .error (.renderFailed m)
                      | .ok buffer => .ok (toPNG buffer width height o.ratio)

/-! ## The server validation layer (server.js `renderImage`, lines 27-245) -/

/-- One constructor per `next(new Error(...))` site in `renderImage`
(`boundsFormat` covers the identically worded length and finiteness
failures). -/
inductive VErr where
  | styleJson
  | centerLength
  | centerLon
  | centerLat
  | zoomRange
  | ratioRange
  | boundsFormat
  | boundsWestEast
  | boundsSouthNorth
  | paddingWidth
  | paddingHeight
  | bearingRange
  | pitchRange
  | centerZoomBoundsRequired
  | imageUrlRequired
  | imageUrlInvalid
  | importFieldsRequired
  | importUrlInvalid
  deriving DecidableEq

/-- server.js lines 54-84: exactly two entries, each finite and inside
the world bounds. -/
def checkCenterSrv : List JSNum → Except VErr Unit
  | [lon, lat] =>
      if !lon.isFinite || JSNum.jgt (JSNum.jabs lon) (.fin 180) then
        .error .centerLon
      else if !lat.isFinite || JSNum.jgt (JSNum.jabs lat) (.fin 90) then
        .error .centerLat
      else .ok ()
  | _ => .error .centerLength

/-- server.js lines 85-94: zoom in [0, 22]. -/
def checkZoomSrv : Option JSNum → Except VErr Unit
  | none => .ok ()
  | some z =>
      if JSNum.jlt z (.fin 0) || JSNum.jgt z (.fin 22) then .error .zoomRange
      else .ok ()

/-- server.js lines 95-101: `!ratio || ratio < 1`. -/
def checkRatioSrv : Option JSNum → Except VErr Unit
  | none => .ok ()
  | some r =>
      if !r.truthy || JSNum.jlt r (.fin 1) then .error .ratioRange
      else .ok ()

/-- server.js lines 102-149: the whole bounds block — four entries, all
finite, west ≠ east, south ≠ north, then the two padding checks (only
when padding is truthy). -/
def checkBoundsSrv (bs : List JSNum) (padding width height : JSNum) :
    Except VErr Unit :=
  if bs.length ≠ 4 then .error .boundsFormat
  else if bs.any (fun b => !b.isFinite) then .error .boundsFormat
  else
    match bs with
    | [west, south, east, north] =>
        if JSNum.jeqStrict west east then .error .boundsWestEast
        else if JSNum.jeqStrict south north then .error .boundsSouthNorth
        else if padding.truthy then
          if JSNum.jge (JSNum.jabs padding) (JSNum.jdiv width (.fin 2)) then
            .error .paddingWidth
          else if JSNum.jge (JSNum.jabs padding) (JSNum.jdiv height (.fin 2)) then
            .error .paddingHeight
          else .ok ()
        else .ok ()
    | _ => .error .boundsFormat

/-- server.js lines 152-160: bearing in [0, 360]. -/
def checkBearingSrv : Option JSNum → Except VErr Unit
  | none => .ok ()
  | some b =>
      if JSNum.jlt b (.fin 0) || JSNum.jgt b (.fin 360) then .error .bearingRange
      else .ok ()

/-- server.js lines 162-168: pitch in [0, 60]. -/
def checkPitchSrv : Option JSNum → Except VErr Unit
  | none => .ok ()
  | some pt =>
      if JSNum.jlt pt (.fin 0) || JSNum.jgt pt (.fin 60) then .error .pitchRange
      else .ok ()

/-- JS truthiness of a JSON value. -/
def jsonTruthy (j : Json) : Bool := !jsonFalsy j

/-- Property access `j[k]` on a JS value (`undefined` off objects). -/
def jsGet (j : Json) (k : String) : Option Json :=
  match j with
  | .obj fs => lookupSrc fs k
  | _ => none

/-- Truthiness of a possibly-undefined value. -/
def optTruthy (o : Option Json) : Bool := !jsonFalsyOpt o

/-- server.js lines 183-196: each image must be truthy with a truthy
`url`, and `new URL(image.url)` must not throw (`urlOkJ` is the external
URL parser applied to the field's value). -/
def checkImagesList (urlOkJ : Json → Bool) : List (String × Json) → Except VErr Unit
  | [] => .ok ()
  | (_, img) :: rest =>
      if !(jsonTruthy img && optTruthy (jsGet img "url")) then
        .error .imageUrlRequired
      else if !urlOkJ ((jsGet img "url").getD .null) then .error .imageUrlInvalid
      else checkImagesList urlOkJ rest

/-- server.js lines 204-218: each import needs truthy `url` and `id`, and
a parseable url unless it starts with `mapbox://styles`. -/
def checkImportsList (urlOkS : String → Bool) : List ImportRef → Except VErr Unit
  | [] => .ok ()
  | imp :: rest =>
      if !(imp.url ≠ "" && imp.id ≠ "") then .error .importFieldsRequired
      else if !jsStartsWith "mapbox://styles" imp.url && !urlOkS imp.url then
        .error .importUrlInvalid
      else checkImportsList urlOkS rest

/-- The parameters `renderImage` destructures (string-encoded `style`,
`center` and `bounds` are modelled after their `JSON.parse` /
`parseListToFloat` coercion, which the claims do not exercise). -/
structure ServerParams where
  style : Option Json := none
  width : JSNum := .fin 0
  height : JSNum := .fin 0
  token : Option String := none
  padding : JSNum := .fin 0
  bearing : Option JSNum := none
  pitch : Option JSNum := none
  imports : Option (List ImportRef) := none
  zoom : Option JSNum := none
  center : Option (List JSNum) := none
  bounds : Option (List JSNum) := none
  ratio : Option JSNum := some (.fin 1)
  images : Option (List (String × Json)) := none

/-- `parseInt(x, 10)` on a number. -/
def JSNum.jparseInt : JSNum → JSNum
  | .fin q => .fin ((q.num / (q.den : ℤ) : ℤ) : ℚ)
  | _ => .nan

/-- The argument record of the `render(style, width, height, options)`
call `renderImage` makes when validation passes. -/
structure RenderTsCall where
  style : Option Json
  width : JSNum
  height : JSNum
  zoom : Option JSNum
  center : Option (List JSNum)
  bounds : Option (List JSNum)
  padding : JSNum
  ratio : Option JSNum
  bearing : Option JSNum
  pitch : Option JSNum
  token : Option String
  images : Option (List (String × Json))
  imports : Option (List ImportRef)

/-- `renderImage` (server.js lines 27-245) up to and including the call
into `render`: the full validation chain, in source order; an `.ok`
result carries the arguments of the `render` call (so an `.error` means
the renderer is never reached). -/
def renderImage (urlOkJ : Json → Bool) (urlOkS : String → Bool)
    (p : ServerParams) : Except VErr RenderTsCall :=
  exSeq (match p.center with
         | none => .ok ()
         | some c => checkCenterSrv c) <|
  exSeq (checkZoomSrv p.zoom) <|
  exSeq (checkRatioSrv p.ratio) <|
  exSeq (match p.bounds with
         | none => .ok ()
         | some bs => checkBoundsSrv bs p.padding p.width p.height) <|
  exSeq (checkBearingSrv p.bearing) <|
  exSeq (checkPitchSrv p.pitch) <|
  exSeq (if !((p.center.isSome && p.zoom.isSome) || p.bounds.isSome) then
           .error .centerZoomBoundsRequired
         else .ok ()) <|
  exSeq (match p.images with
         | none => .ok ()
         | some imgs => checkImagesList urlOkJ imgs) <|
  exSeq (match p.imports with
         | none => .ok ()
         | some imps => checkImportsList urlOkS imps) <|
  .ok { style := p.style
        width := p.width.jparseInt
        height := p.height.jparseInt
        zoom := p.zoom
        center := p.center
        bounds := p.bounds
        padding := p.padding
        ratio := p.ratio
        bearing := p.bearing
        pitch := p.pitch
        token := p.token
        images := p.images
        imports := p.imports }

/-! ## Helper lemmas -/

theorem jsSplit_no_occurrence (c0 : Char) (sepRest : List Char) (s : List Char)
    (h : containsSubL (c0 :: sepRest) s = false) : jsSplit c0 sepRest s = [s] := by
  induction s with
  | nil => rw [jsSplit]
  | cons c rest ih =>
      rw [containsSubL, Bool.or_eq_false_iff] at h
      rw [jsSplit, if_neg (by simp [h.1]), ih h.2]

theorem unpremultiply_length (l : List Nat) :
    (unpremultiply l).length = l.length := by
  induction l using unpremultiply.induct with
  | case1 r g b a rest ih =>
      simp only [unpremultiply]
      split <;> simp [ih]
  | case2 other hno =>
      match other, hno with
      | [], _ => rfl
      | [x], _ => rfl
      | [x, y], _ => rfl
      | [x, y, z], _ => rfl
      | x :: y :: z :: w :: rest, hno => exact (hno x y z w rest rfl).elim

theorem pixelAt_cons4_zero (k0 k1 k2 k3 : Nat) (X : List Nat) :
    pixelAt (k0 :: k1 :: k2 :: k3 :: X) 0 = some (k0, k1, k2, k3) := by
  simp [pixelAt]

theorem pixelAt_cons4_succ (k0 k1 k2 k3 : Nat) (X : List Nat) (i : Nat) :
    pixelAt (k0 :: k1 :: k2 :: k3 :: X) (i + 1) = pixelAt X i := by
  simp only [pixelAt]
  rw [show 4 * (i + 1) = 4 * i + 1 + 1 + 1 + 1 by ring]
  simp [List.drop_succ_cons]

theorem unpremultiply_cons4 (r g b a : Nat) (rest : List Nat) :
    unpremultiply (r :: g :: b :: a :: rest) =
      (if a = 0 then 0 else jsDivByte r a) ::
      (if a = 0 then 0 else jsDivByte g a) ::
      (if a = 0 then 0 else jsDivByte b a) :: a :: unpremultiply rest := by
  by_cases ha : a = 0 <;> simp [unpremultiply, ha]

theorem pixelAt_unpremultiply :
    ∀ l : List Nat, l.length % 4 = 0 →
      ∀ i, pixelAt (unpremultiply l) i = (pixelAt l i).map pixelFix := by
  intro l
  induction l using unpremultiply.induct with
  | case1 r g b a rest ih =>
      intro h i
      have hrest : rest.length % 4 = 0 := by
        simp only [List.length_cons] at h; omega
      match i with
      | 0 =>
          rw [unpremultiply_cons4, pixelAt_cons4_zero, pixelAt_cons4_zero]
          by_cases ha : a = 0 <;> simp [pixelFix, ha]
      | i + 1 =>
          rw [unpremultiply_cons4, pixelAt_cons4_succ, pixelAt_cons4_succ]
          exact ih hrest i
  | case2 other hno =>
      intro h i
      match other, hno with
      | [], _ => simp [unpremultiply, pixelAt]
      | [x], _ => simp at h
      | [x, y], _ => simp at h
      | [x, y, z], _ => simp at h
      | x :: y :: z :: w :: rest, hno => exact (hno x y z w rest rfl).elim

/-! ## C6: tile fetches tolerate 204/404, asset fetches are strict -/

/-- C6: for every tile fetch, an HTTP 204 or 404 response resolves with
null data and no error, while every other non-2xx status fails; for every
asset fetch (sources kind 2, glyphs 4, sprite image 5, sprite JSON 6,
image sources 7) every non-2xx status fails, with no null-data
tolerance. -/
theorem tile_fetch_tolerant_asset_fetch_strict (r : HttpResponse) (url : String)
    (kind : Nat) :
    ((r.status = 204 ∨ r.status = 404) → getRemoteTile r = .ok none) ∧
    (r.status ≠ 204 → r.status ≠ 404 → ¬(200 ≤ r.status ∧ r.status ≤ 299) →
      getRemoteTile r = .error .tileFailed) ∧
    (¬(200 ≤ r.status ∧ r.status ≤ 299) →
      getRemoteAsset r = .error .assetFailed) ∧
    (jsStartsWith "mapbox://" url = false →
      (kind = 2 ∨ kind = 4 ∨ kind = 5 ∨ kind = 6 ∨ kind = 7) →
      ¬(200 ≤ r.status ∧ r.status ≤ 299) →
      requestHandler r url kind = .error .assetFailed) := by
  have hfail : ∀ hs : ¬(200 ≤ r.status ∧ r.status ≤ 299),
      getRemoteAsset r = .error .assetFailed := by
    intro hs
    have : resOk r = false := by
      simp only [resOk, Bool.and_eq_false_iff, decide_eq_false_iff_not]
      omega
    simp [getRemoteAsset, this]
  refine ⟨?_, ?_, hfail, ?_⟩
  · rintro (h | h) <;> simp [getRemoteTile, h]
  · intro h1 h2 h3
    have : resOk r = false := by
      simp only [resOk, Bool.and_eq_false_iff, decide_eq_false_iff_not]
      omega
    simp [getRemoteTile, h1, h2, this]
  · intro hm hk hs
    simp only [requestHandler, hm, Bool.false_eq_true, if_false, if_pos hk,
      hfail hs, Except.map]

/-- Witness for C6 at concrete statuses 404, 204 and 500. -/
theorem tile_fetch_tolerant_asset_fetch_strict_witness :
    getRemoteTile { status := 404 } = .ok none ∧
    getRemoteTile { status := 204 } = .ok none ∧
    getRemoteTile { status := 500 } = .error .tileFailed ∧
    getRemoteAsset { status := 500 } = .error .assetFailed ∧
    requestHandler { status := 500 } "https://example.com/glyphs" 4 =
      .error .assetFailed :=
  ⟨(tile_fetch_tolerant_asset_fetch_strict { status := 404 } "" 0).1 (Or.inr rfl),
   (tile_fetch_tolerant_asset_fetch_strict { status := 204 } "" 0).1 (Or.inl rfl),
   (tile_fetch_tolerant_asset_fetch_strict { status := 500 } "" 0).2.1
     (by decide) (by decide) (by decide),
   (tile_fetch_tolerant_asset_fetch_strict { status := 500 } "" 0).2.2.1 (by decide),
   (tile_fetch_tolerant_asset_fetch_strict { status := 500 }
       "https://example.com/glyphs" 4).2.2.2 (by decide) (by decide) (by decide)⟩

/-! ## C4: the post-render pixel conversion -/

/-- C4: for a buffer whose length is a multiple of 4, `toPNG`
un-premultiplies in place — alpha 0 zeroes the RGB bytes, any other alpha
divides each of R, G, B by `alpha/255` in binary64 arithmetic
(`jsDivByte`, stored through `Uint8Array` truncation) and leaves the
alpha byte unchanged — and hands the encoder the dimensions
`(round(width*ratio), round(height*ratio))`. -/
theorem toPNG_unpremultiplies_and_rounds_dimensions (buffer : List Nat)
    (width height ratio : JSNum) (h4 : buffer.length % 4 = 0) :
    (toPNG buffer width height ratio).width =
      JSNum.jround (JSNum.jmul width ratio) ∧
    (toPNG buffer width height ratio).height =
      JSNum.jround (JSNum.jmul height ratio) ∧
    (toPNG buffer width height ratio).data.length = buffer.length ∧
    ∀ i r g b a, pixelAt buffer i = some (r, g, b, a) →
      pixelAt (toPNG buffer width height ratio).data i =
        some (if a = 0 then (0, 0, 0, a)
              else (jsDivByte r a, jsDivByte g a, jsDivByte b a, a)) := by
  refine ⟨rfl, rfl, unpremultiply_length buffer, ?_⟩
  intro i r g b a hpx
  have h := pixelAt_unpremultiply buffer h4 i
  rw [hpx] at h
  exact h.trans (by simp [pixelFix])

/-- Witness for C4 on a concrete three-pixel buffer; the first pixel's
alpha 33 is a double-rounding case (`11/(33/255)` is `84.99999999999999`
in binary64, truncated to 84, although the exact quotient is 85). -/
theorem toPNG_unpremultiplies_and_rounds_dimensions_witness :
    (toPNG [11, 22, 33, 33, 100, 50, 0, 200, 7, 7, 7, 0]
        (.fin 4) (.fin 3) (.fin 1)).width =
      JSNum.jround (JSNum.jmul (.fin 4) (.fin 1)) ∧
    pixelAt (toPNG [11, 22, 33, 33, 100, 50, 0, 200, 7, 7, 7, 0]
        (.fin 4) (.fin 3) (.fin 1)).data 0 = some (84, 169, 254, 33) ∧
    pixelAt (toPNG [11, 22, 33, 33, 100, 50, 0, 200, 7, 7, 7, 0]
        (.fin 4) (.fin 3) (.fin 1)).data 1 = some (127, 63, 0, 200) ∧
    pixelAt (toPNG [11, 22, 33, 33, 100, 50, 0, 200, 7, 7, 7, 0]
        (.fin 4) (.fin 3) (.fin 1)).data 2 = some (0, 0, 0, 0) := by
  have h := toPNG_unpremultiplies_and_rounds_dimensions
    [11, 22, 33, 33, 100, 50, 0, 200, 7, 7, 7, 0] (.fin 4) (.fin 3) (.fin 1)
    (by decide)
  refine ⟨h.1, ?_, ?_, ?_⟩
  · rw [h.2.2.2 0 11 22 33 33 (by decide)]; decide
  · rw [h.2.2.2 1 100 50 0 200 (by decide)]; decide
  · rw [h.2.2.2 2 7 7 7 0 (by decide)]; decide

/-! ## C5: viewport derivation from bounds -/

/-- C5: when bounds are supplied and center or zoom is missing, the
viewport comes from fitting the bounds into
`(width - 2*padding, height - 2*padding)`: the center verbatim, the zoom
one level below the fitted zoom, clamped below at 0 (for a finite fitted
zoom `q`, that value is `max (q-1) 0`); when both center and zoom are
supplied they pass through unmodified. -/
theorem viewport_from_bounds_or_passthrough
    (fit : List JSNum → JSNum × JSNum → FitResult)
    (bounds : Option (List JSNum)) (zoom : Option JSNum)
    (center : Option (List JSNum)) (width height padding : JSNum) :
    (∀ bs, bounds = some bs → (zoom = none ∨ center = none) →
      resolveViewport fit bounds zoom center width height padding =
        (some (fit bs
            (JSNum.jsub width (JSNum.jmul (.fin 2) padding),
             JSNum.jsub height (JSNum.jmul (.fin 2) padding))).center,
         some (JSNum.jmax
            (JSNum.jsub (fit bs
              (JSNum.jsub width (JSNum.jmul (.fin 2) padding),
               JSNum.jsub height (JSNum.jmul (.fin 2) padding))).zoom (.fin 1))
            (.fin 0)))) ∧
    (∀ z c, zoom = some z → center = some c →
      resolveViewport fit bounds zoom center width height padding =
        (some c, some z)) ∧
    (∀ q : ℚ, JSNum.jmax (JSNum.jsub (.fin q) (.fin 1)) (.fin 0) =
      .fin (max (q - 1) 0)) := by
  refine ⟨?_, ?_, ?_⟩
  · rintro bs rfl h
    have : (zoom.isNone || center.isNone) = true := by
      rcases h with h | h <;> simp [h]
    simp [resolveViewport, this]
  · rintro z c rfl rfl
    cases bounds <;> simp [resolveViewport]
  · intro q
    simp only [JSNum.jmax, JSNum.jsub, JSNum.jlt]
    by_cases hq : q - 1 < 0
    · simp [hq, max_eq_right (le_of_lt hq)]
    · simp [hq, max_eq_left (not_lt.mp hq)]

/-- Witness for C5: a concrete fit; the bounds branch and the
passthrough branch. -/
theorem viewport_from_bounds_or_passthrough_witness :
    resolveViewport (fun _ _ => { center := [.fin 1, .fin 2], zoom := .fin 5 })
        (some [.fin 0, .fin 0, .fin 1, .fin 1]) none none
        (.fin 400) (.fin 260) (.fin 0) =
      (some [.fin 1, .fin 2], some (.fin 4)) ∧
    resolveViewport (fun _ _ => { center := [.fin 1, .fin 2], zoom := .fin 5 })
        (some [.fin 0, .fin 0, .fin 1, .fin 1]) (some (.fin 3))
        (some [.fin 9, .fin 9]) (.fin 400) (.fin 260) (.fin 0) =
      (some [.fin 9, .fin 9], some (.fin 3)) := by
  constructor
  · rw [(viewport_from_bounds_or_passthrough
      (fun _ _ => { center := [.fin 1, .fin 2], zoom := .fin 5 })
      (some [.fin 0, .fin 0, .fin 1, .fin 1]) none none
      (.fin 400) (.fin 260) (.fin 0)).1 _ rfl (Or.inl rfl)]
    norm_num [JSNum.jsub, JSNum.jmax, JSNum.jlt]
  · exact (viewport_from_bounds_or_passthrough
      (fun _ _ => { center := [.fin 1, .fin 2], zoom := .fin 5 })
      (some [.fin 0, .fin 0, .fin 1, .fin 1]) (some (.fin 3))
      (some [.fin 9, .fin 9]) (.fin 400) (.fin 260) (.fin 0)).2.1 _ _ rfl rfl

/-! ## C7: bounds validation -/

/-- C7: for a 4-entry bounds value (zero padding — the padding checks are
a separate rule), validation fails iff west equals east, south equals
north, or some coordinate is non-finite; `[10,10,10,20]` is rejected and
`[10,10,20,20]` accepted. -/
theorem bounds_validation_iff (w s e n wd ht : JSNum) :
    ((checkBoundsSrv [w, s, e, n] (.fin 0) wd ht ≠ .ok ()) ↔
      ¬(∃ qw qs qe qn : ℚ, w = .fin qw ∧ s = .fin qs ∧ e = .fin qe ∧ n = .fin qn ∧
          qw ≠ qe ∧ qs ≠ qn)) ∧
    checkBoundsSrv [.fin 10, .fin 10, .fin 10, .fin 20] (.fin 0) (.fin 400)
        (.fin 260) = .error .boundsWestEast ∧
    checkBoundsSrv [.fin 10, .fin 10, .fin 20, .fin 20] (.fin 0) (.fin 400)
        (.fin 260) = .ok () := by
  refine ⟨⟨?_, ?_⟩, ?_, ?_⟩
  · intro hfail hex
    rcases hex with ⟨qw, qs, qe, qn, rfl, rfl, rfl, rfl, h1, h2⟩
    exact hfail (by
      simp [checkBoundsSrv, JSNum.isFinite, JSNum.jeqStrict, JSNum.truthy, h1, h2])
  · intro hne hok
    apply hne
    rcases w with qw | _ | _ | _ <;> rcases s with qs | _ | _ | _ <;>
      rcases e with qe | _ | _ | _ <;> rcases n with qn | _ | _ | _ <;>
      try (simp [checkBoundsSrv, JSNum.isFinite] at hok;
           try (split at hok <;> simp at hok);
           done)
    by_cases h1 : qw = qe
    · simp [checkBoundsSrv, JSNum.isFinite, JSNum.jeqStrict, h1] at hok
    · by_cases h2 : qs = qn
      · simp [checkBoundsSrv, JSNum.isFinite, JSNum.jeqStrict, h1, h2] at hok
      · exact ⟨qw, qs, qe, qn, rfl, rfl, rfl, rfl, h1, h2⟩
  · norm_num [checkBoundsSrv, JSNum.isFinite, JSNum.jeqStrict, JSNum.truthy]
  · norm_num [checkBoundsSrv, JSNum.isFinite, JSNum.jeqStrict, JSNum.truthy]

/-! ## C8: center validation -/

/-- C8: for a 2-entry center, validation succeeds iff both coordinates are
finite with |lon| ≤ 180 and |lat| ≤ 90; the boundary values pass and
180.0001 fails. -/
theorem center_validation_iff (lon lat : JSNum) :
    (checkCenterSrv [lon, lat] = .ok () ↔
      ((∃ a : ℚ, lon = .fin a ∧ |a| ≤ 180) ∧ (∃ b : ℚ, lat = .fin b ∧ |b| ≤ 90))) ∧
    checkCenterSrv [.fin 180, .fin 90] = .ok () ∧
    checkCenterSrv [.fin (-180), .fin (-90)] = .ok () ∧
    checkCenterSrv [.fin (1800001 / 10000), .fin 0] = .error .centerLon := by
  refine ⟨⟨?_, ?_⟩, ?_, ?_, ?_⟩
  · intro hok
    rcases lon with a | _ | _ | _ <;> rcases lat with b | _ | _ | _ <;>
      try (simp [checkCenterSrv, JSNum.isFinite] at hok;
           try (split at hok <;> simp at hok);
           done)
    by_cases h1 : (180 : ℚ) < |a|
    · simp [checkCenterSrv, JSNum.isFinite, JSNum.jgt, JSNum.jlt, JSNum.jabs, h1] at hok
    · by_cases h2 : (90 : ℚ) < |b|
      · simp [checkCenterSrv, JSNum.isFinite, JSNum.jgt, JSNum.jlt, JSNum.jabs,
          h1, h2] at hok
      · exact ⟨⟨a, rfl, not_lt.mp h1⟩, ⟨b, rfl, not_lt.mp h2⟩⟩
  · rintro ⟨⟨a, rfl, ha⟩, ⟨b, rfl, hb⟩⟩
    simp [checkCenterSrv, JSNum.isFinite, JSNum.jgt, JSNum.jlt, JSNum.jabs,
      not_lt.mpr ha, not_lt.mpr hb]
  · norm_num [checkCenterSrv, JSNum.isFinite, JSNum.jgt, JSNum.jlt, JSNum.jabs]
  · norm_num [checkCenterSrv, JSNum.isFinite, JSNum.jgt, JSNum.jlt, JSNum.jabs]
  · have h : (180 : ℚ) < |1800001 / 10000| := by
      rw [abs_of_pos (by norm_num)]; norm_num
    simp [checkCenterSrv, JSNum.isFinite, JSNum.jgt, JSNum.jlt, JSNum.jabs, h]

/-! ## C1: the source-map merge -/

theorem lookupSrc_map_set (m : List (String × Json)) (kset k : String) (v : Json)
    (h : kset ≠ k) :
    lookupSrc (m.map (fun p => if p.1 = kset then (kset, v) else p)) k =
      lookupSrc m k := by
  induction m with
  | nil => rfl
  | cons p rest ih =>
      obtain ⟨pa, pb⟩ := p
      by_cases hp : pa = kset
      · subst hp
        rw [List.map_cons, if_pos rfl]
        simp [lookupSrc, h, ih]
      · rw [List.map_cons, if_neg hp]
        simp [lookupSrc, ih]

theorem lookupSrc_append_single_ne (m : List (String × Json)) (kset k : String)
    (v : Json) (h : kset ≠ k) :
    lookupSrc (m ++ [(kset, v)]) k = lookupSrc m k := by
  induction m with
  | nil => simp [lookupSrc, h]
  | cons p rest ih =>
      obtain ⟨pa, pb⟩ := p
      by_cases hpk : pa = k <;> simp [lookupSrc, hpk, ih]

theorem lookupSrc_objSet_ne (m : List (String × Json)) (kset k : String) (v : Json)
    (h : kset ≠ k) : lookupSrc (objSet m kset v) k = lookupSrc m k := by
  unfold objSet
  split
  · exact lookupSrc_map_set m kset k v h
  · exact lookupSrc_append_single_ne m kset k v h

theorem lookupSrc_foldl_objSet (iid : String) (srcs : List (String × Json)) :
    ∀ (acc : List (String × Json)) (k : String),
      (∀ kv ∈ srcs, importKey iid kv.1 ≠ k) →
      lookupSrc (srcs.foldl (fun acc kv => objSet acc (importKey iid kv.1) kv.2) acc) k =
        lookupSrc acc k := by
  induction srcs with
  | nil => intro acc k _; rfl
  | cons kv rest ih =>
      intro acc k h
      rw [List.foldl_cons, ih _ _ (fun x hx => h x (List.mem_cons_of_mem _ hx)),
        lookupSrc_objSet_ne _ _ _ _ (h kv (List.mem_cons_self _ _))]

theorem lookupSrc_mergeOne (base : Style) (iid : String) (imp : Style) (k : String)
    (h : ∀ kv ∈ imp.sources, importKey iid kv.1 ≠ k) :
    lookupSrc (mergeOne base iid imp).sources k = lookupSrc base.sources k :=
  lookupSrc_foldl_objSet iid imp.sources base.sources k h

theorem lookupSrc_mergeAux (imports : List (String × Style)) :
    ∀ (idx : Nat) (base : Style) (k : String),
      k ∉ rewrittenKeysAux idx imports →
      lookupSrc (mergeAux base idx imports).sources k = lookupSrc base.sources k := by
  induction imports with
  | nil => intro idx base k _; rfl
  | cons p rest ih =>
      intro idx base k h
      obtain ⟨id, imp⟩ := p
      simp only [rewrittenKeysAux, List.mem_append] at h
      push_neg at h
      simp only [mergeAux]
      rw [ih (idx + 1) _ k h.2]
      exact lookupSrc_mergeOne _ _ _ _ (fun kv hkv heq =>
        h.1 (heq ▸ List.mem_map_of_mem (fun kv => importKey (effectiveImportId idx id) kv.1) hkv))

/-- C1 counterexample: a base style whose source `a` collides with the
rewritten name of an import with id `a` containing a source named
`composite`; the merge overwrites the base entry. -/
theorem source_merge_overwrite_counterexample :
    lookupSrc (mergeImportedStyles
        { sources := [("a", Json.str "base")], layers := [] }
        [("a", { sources := [("composite", Json.str "imported")], layers := [] })]).sources
        "a" = some (Json.str "imported") ∧
    Json.str "imported" ≠ Json.str "base" := by
  exact ⟨rfl, by simp⟩

/-- C1 amended: the merge writes each imported source under its rewritten
name with plain JS assignment, so a base key equal to some rewritten name
is overwritten; every base source key that collides with no rewritten
imported source name still maps to its original value after all imports
are merged. -/
theorem source_merge_preserves_noncolliding_base_keys (base : Style)
    (imports : List (String × Style)) (k : String)
    (hk : k ∉ rewrittenKeysAux 0 imports) :
    lookupSrc (mergeImportedStyles base imports).sources k =
      lookupSrc base.sources k :=
  lookupSrc_mergeAux imports 0 base k hk

/-- Witness for the amended C1 at a concrete non-colliding key. -/
theorem source_merge_preserves_noncolliding_base_keys_witness :
    lookupSrc (mergeImportedStyles
        { sources := [("keep", Json.str "v")], layers := [] }
        [("a", { sources := [("composite", Json.str "w")], layers := [] })]).sources
        "keep" =
      lookupSrc [("keep", Json.str "v")] "keep" :=
  source_merge_preserves_noncolliding_base_keys _ _ _ (by decide)

/-! ## C2: the merged layer sequence -/

theorem mergeAux_layers (imports : List (String × Style)) :
    ∀ (idx : Nat) (base : Style),
      (mergeAux base idx imports).layers =
        (rewriteBlocksAux idx imports).reverse.flatten ++ base.layers := by
  induction imports with
  | nil => intro idx base; simp [mergeAux, rewriteBlocksAux]
  | cons p rest ih =>
      intro idx base
      obtain ⟨id, imp⟩ := p
      simp only [mergeAux, rewriteBlocksAux]
      rw [ih]
      simp [mergeOne, List.reverse_cons, List.flatten_append, List.append_assoc]

/-- C2 counterexample: with two imports the merged sequence carries the
second import's rewritten layers *before* the first import's, the reverse
of the claimed original import order. -/
theorem merged_layer_order_counterexample :
    (mergeImportedStyles { sources := [], layers := [] }
        [("a", { sources := [], layers := [{ source := some "s", rest := [] }] }),
         ("b", { sources := [], layers := [{ source := some "t", rest := [] }] })]).layers =
      [{ source := some "b-t", rest := [] }, { source := some "a-s", rest := [] }] ∧
    ([{ source := some "b-t", rest := [] }, { source := some "a-s", rest := [] }] :
        List Layer) ≠
      [{ source := some "a-s", rest := [] }, { source := some "b-t", rest := [] }] := by
  exact ⟨rfl, by simp⟩

/-- C2 amended: the merged layer sequence is the rewritten layer blocks of
the imports concatenated in *reverse* import order (each import is
prepended in turn, so later imports end up first), followed by the base
style's original layers; each imported layer's `source` is left unset
when unset (or the empty string), rewritten to the import id when it is
`composite`, and to `id-source` otherwise. -/
theorem merged_layer_sequence (base : Style) (imports : List (String × Style))
    (h2 : 2 ≤ imports.length) :
    ((mergeImportedStyles base imports).layers =
      (rewriteBlocksAux 0 imports).reverse.flatten ++ base.layers) ∧
    (∀ iid l, l.source = none → (rewriteLayer iid l).source = none) ∧
    (∀ iid l, l.source = some "composite" → (rewriteLayer iid l).source = some iid) ∧
    (∀ iid l s, l.source = some s → s ≠ "composite" → s ≠ "" →
      (rewriteLayer iid l).source = some (iid ++ "-" ++ s)) ∧
    (∀ iid l, l.source = some "" → (rewriteLayer iid l).source = none) := by
  refine ⟨mergeAux_layers imports 0 base, ?_, ?_, ?_, ?_⟩
  · intro iid l h; simp [rewriteLayer, h]
  · intro iid l h; simp [rewriteLayer, h]
  · intro iid l s h hc he; simp [rewriteLayer, h, hc, he]
  · intro iid l h; simp [rewriteLayer, h]

/-- Witness for the amended C2 on a concrete two-import request. -/
theorem merged_layer_sequence_witness :
    (mergeImportedStyles { sources := [], layers := [] }
        [("a", { sources := [], layers := [{ source := some "s", rest := [] }] }),
         ("b", { sources := [], layers := [{ source := some "t", rest := [] }] })]).layers =
      (rewriteBlocksAux 0
        [("a", { sources := [], layers := [{ source := some "s", rest := [] }] }),
         ("b", { sources := [], layers := [{ source := some "t", rest := [] }] })]).reverse.flatten
        ++ ({ sources := [], layers := [] } : Style).layers :=
  (merged_layer_sequence { sources := [], layers := [] }
    [("a", { sources := [], layers := [{ source := some "s", rest := [] }] }),
     ("b", { sources := [], layers := [{ source := some "t", rest := [] }] })]
    (by decide)).1

/-! ## C3: the center+zoom-or-bounds cross-field rule -/

/-- C3 counterexample: a request with no bounds and no center but an
out-of-range zoom satisfies the claim's hypothesis, yet validation fails
with the zoom-range error, not the center+zoom-or-bounds message (the
individual field checks run first). -/
theorem missing_viewport_message_counterexample :
    renderImage (fun _ => true) (fun _ => true)
      { style := some (Json.obj []), width := .fin 400, height := .fin 260,
        zoom := some (.fin 30) } = .error .zoomRange ∧
    VErr.zoomRange ≠ VErr.centerZoomBoundsRequired := by
  exact ⟨rfl, by decide⟩

/-- C3 amended: whenever bounds are absent and center and zoom are not
both present, validation fails with some `ValidationError` before the
`render` call (so the external renderer is never invoked); when moreover
every present field passes its own check, the error is exactly the
center+zoom-or-bounds one — in particular
`render({style:{}, width:400, height:260})` fails with it. -/
theorem center_zoom_or_bounds_required (urlOkJ : Json → Bool)
    (urlOkS : String → Bool) (p : ServerParams)
    (hb : p.bounds = none)
    (hcz : ¬(p.center.isSome = true ∧ p.zoom.isSome = true)) :
    (∃ e, renderImage urlOkJ urlOkS p = .error e) ∧
    ((match p.center with
      | none => Except.ok ()
      | some c => checkCenterSrv c) = .ok () →
     checkZoomSrv p.zoom = .ok () →
     checkRatioSrv p.ratio = .ok () →
     checkBearingSrv p.bearing = .ok () →
     checkPitchSrv p.pitch = .ok () →
     renderImage urlOkJ urlOkS p = .error .centerZoomBoundsRequired) := by
  have hab : (p.center.isSome && p.zoom.isSome) = false := by
    cases hc : p.center.isSome <;> cases hz : p.zoom.isSome <;> simp_all
  have hpart2 : (match p.center with
      | none => Except.ok ()
      | some c => checkCenterSrv c) = .ok () →
      checkZoomSrv p.zoom = .ok () →
      checkRatioSrv p.ratio = .ok () →
      checkBearingSrv p.bearing = .ok () →
      checkPitchSrv p.pitch = .ok () →
      renderImage urlOkJ urlOkS p = .error .centerZoomBoundsRequired := by
    intro h1 h2 h3 h4 h5
    simp [renderImage, h1, h2, h3, h4, h5, hb, hab, exSeq]
  refine ⟨?_, hpart2⟩
  cases h1 : (match p.center with
    | none => Except.ok ()
    | some c => checkCenterSrv c) with
  | error e => exact ⟨e, by simp only [renderImage, h1, exSeq]⟩
  | ok u =>
    cases u
    cases h2 : checkZoomSrv p.zoom with
    | error e => exact ⟨e, by simp only [renderImage, h1, h2, exSeq]⟩
    | ok u =>
      cases u
      cases h3 : checkRatioSrv p.ratio with
      | error e => exact ⟨e, by simp only [renderImage, h1, h2, h3, exSeq]⟩
      | ok u =>
        cases u
        cases h4 : checkBearingSrv p.bearing with
        | error e => exact ⟨e, by simp only [renderImage, h1, h2, h3, h4, hb, exSeq]⟩
        | ok u =>
          cases u
          cases h5 : checkPitchSrv p.pitch with
          | error e =>
              exact ⟨e, by simp only [renderImage, h1, h2, h3, h4, h5, hb, exSeq]⟩
          | ok u =>
              cases u
              exact ⟨.centerZoomBoundsRequired, hpart2 h1 h2 h3 h4 h5⟩

/-- Witness for the amended C3: the spec's own end-to-end instance
`render({style:{}, width:400, height:260})`. -/
theorem center_zoom_or_bounds_required_witness :
    renderImage (fun _ => true) (fun _ => true)
      { style := some (Json.obj []), width := .fin 400, height := .fin 260 } =
      .error .centerZoomBoundsRequired :=
  (center_zoom_or_bounds_required (fun _ => true) (fun _ => true)
    { style := some (Json.obj []), width := .fin 400, height := .fin 260 }
    rfl (by simp)).2 rfl rfl rfl rfl rfl

/-! ## C9: local mbtiles references are rejected after the merge -/

/-- C9: once a request passes validation and its imports resolve, a merged
style whose JSON serialization matches the mbtiles pattern makes `render`
fail with the local-mbtiles error for *every* renderer (so the renderer
is never consulted) and for every `tilePath` (`o.tilePath` is arbitrary
and unused by this stage). -/
theorem mbtiles_reference_rejected
    (fit : List JSNum → JSNum × JSNum → FitResult)
    (normalize : String → Option String → String)
    (importFetch : String → Except String Json)
    (b64decode : String → List Nat)
    (imageFetch : String → Except String (List Nat))
    (decodeImage : List Nat → Option DecodedImage)
    (renderer : RenderArgs → Except String (List Nat))
    (st : Style) (width height : JSNum) (o : ROptions)
    (resolved : List (String × Style))
    (hw : width.truthy = true) (hh : height.truthy = true)
    (hv : validateRenderCore width height o = .ok ())
    (himp : importsStep (fun u => normalize u o.token) importFetch o.imports =
      .ok resolved)
    (hmb : mbtilesMatch
      (stringifyJson (styleToJson (mergeImportedStyles st resolved))) = true) :
    render fit normalize importFetch b64decode imageFetch decodeImage renderer
      (some st) width height o = .error .mbtilesUnsupported := by
  simp [render, hw, hh, hv, himp, hmb]

/-- Witness for C9: a concrete style carrying `"mbtiles://foo/1/2/3"`. -/
theorem mbtiles_reference_rejected_witness :
    render (fun _ _ => { center := [.fin 0, .fin 0], zoom := .fin 1 })
      (fun u _ => u) (fun _ => .error "net") (fun _ => []) (fun _ => .error "net")
      (fun _ => none) (fun _ => .error "renderer unavailable")
      (some { sources := [("tiles", Json.str "mbtiles://foo/1/2/3")], layers := [] })
      (.fin 400) (.fin 260)
      { center := some [.fin 0, .fin 0], zoom := some (.fin 1),
        tilePath := some "/tiles" } =
      .error .mbtilesUnsupported :=
  mbtiles_reference_rejected _ _ _ _ _ _ _ _ _ _ _ [] rfl rfl rfl rfl (by decide)

/-! ## C10: data: icon urls without a base64 marker -/

/-- C10: an icon whose url starts with `data:` but contains no `base64,`
fails to load (the split leaves nothing to decode and `Buffer.from`
throws), icon loading has no partial-success mode, and a render request
whose images map contains such an entry fails. -/
theorem data_url_without_base64_marker_fails
    (b64decode : String → List Nat)
    (imageFetch : String → Except String (List Nat))
    (decodeImage : List Nat → Option DecodedImage)
    (id : String) (img : ImageDef)
    (hd : jsStartsWith "data:" img.url = true)
    (hn : containsSubL "base64,".data img.url.data = false) :
    loadImage b64decode imageFetch decodeImage id img = .error (.iconError id) ∧
    (∀ imgs : List (String × ImageDef), (id, img) ∈ imgs →
      ∃ e, loadImages b64decode imageFetch decodeImage (some imgs) = .error e) ∧
    (∀ (fit : List JSNum → JSNum × JSNum → FitResult)
        (normalize : String → Option String → String)
        (importFetch : String → Except String Json)
        (renderer : RenderArgs → Except String (List Nat))
        (st : Style) (width height : JSNum) (o : ROptions)
        (resolved : List (String × Style)),
      width.truthy = true → height.truthy = true →
      validateRenderCore width height o = .ok () →
      importsStep (fun u => normalize u o.token) importFetch o.imports =
        .ok resolved →
      mbtilesMatch
        (stringifyJson (styleToJson (mergeImportedStyles st resolved))) = false →
      ∀ imgs, o.images = some imgs → (id, img) ∈ imgs →
      ∃ e, render fit normalize importFetch b64decode imageFetch decodeImage
        renderer (some st) width height o = .error e) := by
  have hurl : ¬(img.url = "") := by
    intro h0
    rw [h0] at hd
    exact absurd hd (by decide)
  have hsplit : jsSplit 'b' "ase64,".data img.url.data = [img.url.data] :=
    jsSplit_no_occurrence _ _ _ (by
      rw [show ('b' :: "ase64,".data : List Char) = "base64,".data from rfl]
      exact hn)
  have hpart1 : loadImage b64decode imageFetch decodeImage id img =
      .error (.iconError id) := by
    simp [loadImage, hurl, hd, hsplit]
  have hpart2 : ∀ imgs : List (String × ImageDef), (id, img) ∈ imgs →
      ∃ e, loadImages b64decode imageFetch decodeImage (some imgs) = .error e := by
    intro imgs hmem
    induction imgs with
    | nil => cases hmem
    | cons kv rest ih =>
        cases hkv : loadImage b64decode imageFetch decodeImage kv.1 kv.2 with
        | error e =>
            exact ⟨e, by simp [loadImages, loadImagesList, hkv]⟩
        | ok a =>
            rcases List.mem_cons.mp hmem with heq | hmem2
            · rw [← heq] at hkv
              rw [hpart1] at hkv
              cases hkv
            · obtain ⟨e, he⟩ := ih hmem2
              refine ⟨e, ?_⟩
              simp only [loadImages] at he
              simp [loadImages, loadImagesList, hkv, he]
  refine ⟨hpart1, hpart2, ?_⟩
  intro fit normalize importFetch renderer st width height o resolved
    hw hh hv himp hmb imgs ho hmem
  obtain ⟨e, he⟩ := hpart2 imgs hmem
  exact ⟨e, by simp [render, hw, hh, hv, himp, hmb, ho, he]⟩

/-- Witness for C10 at a concrete `data:` url with no base64 marker. -/
theorem data_url_without_base64_marker_fails_witness :
    loadImage (fun _ => []) (fun _ => .error "net") (fun _ => none) "icon"
      { url := "data:image/svg+xml;utf8" } = .error (.iconError "icon") :=
  (data_url_without_base64_marker_fails (fun _ => []) (fun _ => .error "net")
    (fun _ => none) "icon" { url := "data:image/svg+xml;utf8" }
    (by decide) (by decide)).1
